import Mathlib

/-!
# Verification of the vLLM metrics toolkit core

Shallow embedding of `vllm_metrics_toolkit/vllm_metrics_client.py` and the
scheduling logic of `vllm_metrics_toolkit/scripts/benchmark_sharegpt.py`.
Python floats are modelled as exact rationals (`ℚ`); the network environment
(HTTP responses, stream events with their arrival times, trace-store polls)
is passed in explicitly, so every effectful routine becomes a pure function
of its environment.
-/

namespace VllmMetrics

/-- A JSON-decoded Jaeger tag value, as produced by `json.loads` on the
trace-store response: string, int, float, or bool. -/
inductive TagValue where
  | vStr (s : String)
  | vInt (n : ℤ)
  | vFloat (q : ℚ)
  | vBool (b : Bool)
deriving Repr, DecidableEq

/-- Embedding of the `RequestMetrics` dataclass (vllm_metrics_client.py lines 29-77): one
request's full timing/outcome state, with the dataclass defaults.
`model_name` keeps the raw tag value, since the source stores
`tags.get("gen_ai.response.model")` without conversion. -/
structure RequestMetrics where
  request_id : String
  trace_id : String
  success : Bool := false
  error_message : String := ""
  send_time : Option ℚ := none
  client_e2e_latency : ℚ := 0
  client_ttft : Option ℚ := none
  client_tpot : Option ℚ := none
  client_itl : Option ℚ := none
  server_queue_time : Option ℚ := none
  server_prefill_time : Option ℚ := none
  server_decode_time : Option ℚ := none
  server_inference_time : Option ℚ := none
  server_e2e_time : Option ℚ := none
  server_ttft : Option ℚ := none
  prompt_tokens : Option ℤ := none
  completion_tokens : Option ℤ := none
  model_name : Option TagValue := none
  temperature : Option ℚ := none
  top_p : Option ℚ := none
  max_tokens : Option ℤ := none
  generated_text : String := ""
  client_itl_list : List ℚ := []
deriving Repr, DecidableEq

/-- The fresh record built at the top of `send_request` (lines 207-211):
only identity and the wall-clock send time are set. -/
def freshMetrics (request_id trace_id : String) (send_time : ℚ) : RequestMetrics :=
  { request_id := request_id, trace_id := trace_id, send_time := some send_time }

/-- One line consumed from the event stream in `_process_streaming_response`.
`token t c` is a `data:` line whose JSON decodes with a truthy
`choices[0].delta.content` equal to `c`, arriving at monotonic time `t`.
`skip` is any line that is silently passed over (non-`data:` line,
undecodable JSON, or empty/missing delta content). `done` is the literal
`data: [DONE]` line, which breaks the loop. -/
inductive StreamEvent where
  | token (time : ℚ) (content : String)
  | skip
  | done
deriving Repr, DecidableEq

/-- The loop state of `_process_streaming_response` (lines 264-267), plus the
in-loop mutation of `metrics.client_ttft` (line 283), which is the only write
to the record that happens before the stream finishes. -/
structure StreamState where
  firstTokenTime : Option ℚ
  mostRecent : ℚ
  gaps : List ℚ
  text : String
  ttft : Option ℚ
deriving Repr, DecidableEq

def initState (start : ℚ) (m : RequestMetrics) : StreamState :=
  { firstTokenTime := none, mostRecent := start, gaps := [], text := "",
    ttft := m.client_ttft }

/-- One iteration of the streaming loop (lines 269-292). -/
def streamStep (start : ℚ) (st : StreamState) : StreamEvent → StreamState
  | .token t c =>
      match st.firstTokenTime with
      | none =>
          { st with firstTokenTime := some t, ttft := some ((t - start) * 1000),
                    text := st.text ++ c, mostRecent := t }
      | some _ =>
          { st with gaps := st.gaps ++ [t - st.mostRecent],
                    text := st.text ++ c, mostRecent := t }
  | .skip => st
  | .done => st

/-- Runs the streaming loop over the lines; the loop `break`s at the first
`[DONE]` line, so later events are never consumed. -/
def runStream (start : ℚ) : StreamState → List StreamEvent → StreamState
  | st, [] => st
  | st, .done :: _ => st
  | st, .token t c :: rest => runStream start (streamStep start st (.token t c)) rest
  | st, .skip :: rest => runStream start (streamStep start st .skip) rest

/-- Embedding of `_process_streaming_response` run to completion (lines 262-303): the loop,
then the post-loop assignments of e2e latency, text, the gap list, and - only
when the gap list is non-empty - TPOT and ITL as the gap mean times 1000. -/
def processStreamingResponse (start endTime : ℚ) (events : List StreamEvent)
    (m : RequestMetrics) : RequestMetrics :=
  let st := runStream start (initState start m) events
  let m1 := { m with
    client_ttft := st.ttft,
    client_e2e_latency := (endTime - start) * 1000,
    generated_text := st.text,
    client_itl_list := st.gaps }
  if st.gaps.isEmpty then m1
  else
    let tpot := (st.gaps.sum / (st.gaps.length : ℚ)) * 1000
    { m1 with client_tpot := some tpot, client_itl := some tpot }

/-- The record as left behind when an exception aborts the streaming loop
after `events` have been consumed: the local variables are discarded, but the
direct write to `metrics.client_ttft` (line 283) persists. -/
def processStreamingPartial (start : ℚ) (events : List StreamEvent)
    (m : RequestMetrics) : RequestMetrics :=
  let st := runStream start (initState start m) events
  { m with client_ttft := st.ttft }

/-- Embedding of `_process_non_streaming_response` (lines 305-313). -/
def processNonStreamingResponse (start endTime : ℚ) (content : Option String)
    (m : RequestMetrics) : RequestMetrics :=
  let m1 := { m with client_e2e_latency := (endTime - start) * 1000 }
  match content with
  | some c => { m1 with generated_text := c }
  | none => m1

/-- The record as left behind when `_process_non_streaming_response` raises
during the content extraction at lines 312-313 (e.g. `KeyError` on a 200
body without `choices[0].message.content`): the end-to-end latency was
already written at line 310 and persists; nothing else was touched. -/
def processNonStreamingPartial (start endTime : ℚ) (m : RequestMetrics) :
    RequestMetrics :=
  { m with client_e2e_latency := (endTime - start) * 1000 }

/-- The environment's answer to the HTTP call issued by `send_request`:
either a non-200 status, a stream that completes (ending at monotonic time
`endTime`), a stream that raises after consuming a prefix of its lines, a
non-streaming body, a non-streaming body whose JSON decodes but whose
content extraction (lines 312-313) raises after the latency write at
line 310, a failure while reading or decoding that body, or a
connection-level exception before any response processing. -/
inductive HttpOutcome where
  | httpError (status : ℕ) (body : String)
  | streamOk (events : List StreamEvent) (endTime : ℚ)
  | streamExn (events : List StreamEvent) (msg : String)
  | nonStreamOk (content : Option String) (endTime : ℚ)
  | nonStreamExtractExn (endTime : ℚ) (msg : String)
  | nonStreamExn (msg : String)
  | connExn (msg : String)
deriving Repr, DecidableEq

/-- Embedding of `send_request` (lines 179-260), as a function of the fresh identifiers,
the two clock readings taken at the top, and the HTTP outcome. A non-200
status records an error message and returns; a completed response is
processed and then marked successful; any exception stores its message on the
record, keeping whatever was already written to the record itself. -/
def send_request (request_id trace_id : String) (send_time start : ℚ)
    (outcome : HttpOutcome) : RequestMetrics :=
  let m := freshMetrics request_id trace_id send_time
  match outcome with
  | .httpError status body =>
      { m with error_message := "HTTP " ++ toString status ++ ": " ++ body }
  | .streamOk events endTime =>
      { processStreamingResponse start endTime events m with success := true }
  | .streamExn events msg =>
      { processStreamingPartial start events m with error_message := msg }
  | .nonStreamOk content endTime =>
      { processNonStreamingResponse start endTime content m with success := true }
  | .nonStreamExtractExn endTime msg =>
      { processNonStreamingPartial start endTime m with error_message := msg }
  | .nonStreamExn msg => { m with error_message := msg }
  | .connExn msg => { m with error_message := msg }

/-! ## Trace-store enrichment (`_extract_server_metrics_from_trace`,
`enrich_with_server_metrics`, `_safe_float_ms`, `_safe_float`, `_safe_int`) -/

/-- Python `float()` applied to a JSON-decoded tag value; `none` models a
raised `ValueError`/`TypeError`. String parsing models the plain decimal
grammar `[sign] digits [. digits]`. -/
def digitsVal (cs : List Char) : ℕ :=
  cs.foldl (fun a c => a * 10 + (c.toNat - 48)) 0

def parseFloatStr (s : String) : Option ℚ :=
  let cs := s.toList
  let signed : ℚ × List Char :=
    match cs with
    | '-' :: rest => (-1, rest)
    | '+' :: rest => (1, rest)
    | _ => (1, cs)
  let sign := signed.1
  let body := signed.2
  let intPart := body.takeWhile (·.isDigit)
  let rest := body.dropWhile (·.isDigit)
  match rest with
  | [] => if intPart.isEmpty then none else some (sign * digitsVal intPart)
  | '.' :: fracTail =>
      let fracPart := fracTail.takeWhile (·.isDigit)
      let rest2 := fracTail.dropWhile (·.isDigit)
      if ¬ rest2.isEmpty then none
      else if intPart.isEmpty ∧ fracPart.isEmpty then none
      else some (sign * ((digitsVal intPart : ℚ) +
        (digitsVal fracPart : ℚ) / (10 ^ fracPart.length)))
  | _ => none

def parseIntStr (s : String) : Option ℤ :=
  let cs := s.toList
  let signed : ℤ × List Char :=
    match cs with
    | '-' :: rest => (-1, rest)
    | '+' :: rest => (1, rest)
    | _ => (1, cs)
  if signed.2.isEmpty ∨ ¬ (signed.2.all (·.isDigit)) then none
  else some (signed.1 * digitsVal signed.2)

/-- Truncation toward zero, as Python `int()` does on a float. -/
def ratTrunc (q : ℚ) : ℤ := if 0 ≤ q then ⌊q⌋ else ⌈q⌉

def pyFloat : TagValue → Option ℚ
  | .vFloat q => some q
  | .vInt n => some (n : ℚ)
  | .vBool b => some (if b then 1 else 0)
  | .vStr s => parseFloatStr s

def pyInt : TagValue → Option ℤ
  | .vFloat q => some (ratTrunc q)
  | .vInt n => some n
  | .vBool b => some (if b then 1 else 0)
  | .vStr s => parseIntStr s

/-- Embedding of `_safe_float_ms` (lines 414-421): seconds to milliseconds, `None` when
the tag is absent or fails to parse. -/
def safe_float_ms (v : Option TagValue) : Option ℚ :=
  match v with
  | none => none
  | some tv => (pyFloat tv).map (· * 1000)

/-- Embedding of `_safe_float` (lines 423-430). -/
def safe_float (v : Option TagValue) : Option ℚ := v.bind pyFloat

/-- Embedding of `_safe_int` (lines 432-439). -/
def safe_int (v : Option TagValue) : Option ℤ := v.bind pyInt

structure SpanTag where
  key : String
  value : TagValue
deriving Repr, DecidableEq

structure TraceSpan where
  operationName : String
  tags : List SpanTag
deriving Repr, DecidableEq

structure TraceItem where
  spans : List TraceSpan
deriving Repr, DecidableEq

/-- The JSON body returned by the Jaeger trace-query endpoint: its `data`
array of traces, each with a `spans` array. -/
structure TraceData where
  data : List TraceItem
deriving Repr, DecidableEq

/-- Embedding of the tag dict lookup at line 346:
in a dict comprehension a later duplicate key overwrites an earlier one. -/
def tagsGet (tags : List SpanTag) (k : String) : Option TagValue :=
  (tags.reverse.find? (fun t => t.key = k)).map (·.value)

/-- The 12-key dict built at lines 347-361 for an `llm_request` span. In
Python this dict is truthy even when every value is `None`, so the
`Option`-level distinction is only found-span vs no-span. -/
structure ServerData where
  queue_time : Option ℚ
  prefill_time : Option ℚ
  decode_time : Option ℚ
  inference_time : Option ℚ
  e2e_time : Option ℚ
  ttft : Option ℚ
  prompt_tokens : Option ℤ
  completion_tokens : Option ℤ
  model : Option TagValue
  temperature : Option ℚ
  top_p : Option ℚ
  max_tokens : Option ℤ
deriving Repr, DecidableEq

def serverDataOfTags (tags : List SpanTag) : ServerData :=
  { queue_time := safe_float_ms (tagsGet tags "gen_ai.latency.time_in_queue"),
    prefill_time := safe_float_ms (tagsGet tags "gen_ai.latency.time_in_model_prefill"),
    decode_time := safe_float_ms (tagsGet tags "gen_ai.latency.time_in_model_decode"),
    inference_time := safe_float_ms (tagsGet tags "gen_ai.latency.time_in_model_inference"),
    e2e_time := safe_float_ms (tagsGet tags "gen_ai.latency.e2e"),
    ttft := safe_float_ms (tagsGet tags "gen_ai.latency.time_to_first_token"),
    prompt_tokens := safe_int (tagsGet tags "gen_ai.usage.prompt_tokens"),
    completion_tokens := safe_int (tagsGet tags "gen_ai.usage.completion_tokens"),
    model := tagsGet tags "gen_ai.response.model",
    temperature := safe_float (tagsGet tags "gen_ai.request.temperature"),
    top_p := safe_float (tagsGet tags "gen_ai.request.top_p"),
    max_tokens := safe_int (tagsGet tags "gen_ai.request.max_tokens") }

/-- The nested loop of `_extract_server_metrics_from_trace` (lines 343-361):
return on the FIRST span whose operation name is `llm_request`, regardless of
which tags it carries; `none` models the falsy `{}` returned when no such
span exists. -/
def extractFromSpans : List TraceSpan → Option ServerData
  | [] => none
  | sp :: rest =>
      if sp.operationName = "llm_request" then some (serverDataOfTags sp.tags)
      else extractFromSpans rest

def extractFromTraces : List TraceItem → Option ServerData
  | [] => none
  | t :: rest =>
      match extractFromSpans t.spans with
      | some d => some d
      | none => extractFromTraces rest

def extract_server_metrics_from_trace (td : TraceData) : Option ServerData :=
  extractFromTraces td.data

/-- One iteration of the poll loop inside `enrich_with_server_metrics`
(lines 381-392): `fail` is an exception or a non-200 status, `ok` a decoded
trace-query body. -/
inductive PollResult where
  | fail
  | ok (td : TraceData)
deriving Repr, DecidableEq

/-- The poll loop: keep polling until an extraction is truthy (`break` at
line 388) or the timeout expires - modelled as the finite list of poll
iterations the timeout allows. -/
def pollLoop : List PollResult → Option ServerData
  | [] => none
  | .fail :: rest => pollLoop rest
  | .ok td :: rest =>
      match extract_server_metrics_from_trace td with
      | some d => some d
      | none => pollLoop rest

/-- Embedding of `enrich_with_server_metrics` (lines 367-412): returns `False` leaving the
record untouched when the poll loop times out with nothing truthy, else
unconditionally overwrites the twelve server-side fields and returns `True`. -/
def enrich_with_server_metrics (polls : List PollResult) (m : RequestMetrics) :
    Bool × RequestMetrics :=
  match pollLoop polls with
  | none => (false, m)
  | some d =>
      (true,
       { m with
         server_queue_time := d.queue_time,
         server_prefill_time := d.prefill_time,
         server_decode_time := d.decode_time,
         server_inference_time := d.inference_time,
         server_e2e_time := d.e2e_time,
         server_ttft := d.ttft,
         prompt_tokens := d.prompt_tokens,
         completion_tokens := d.completion_tokens,
         model_name := d.model,
         temperature := d.temperature,
         top_p := d.top_p,
         max_tokens := d.max_tokens })

/-! ## Summary aggregation (`BenchmarkSummary`, `calculate_benchmark_summary`) -/

/-- Embedding of the `BenchmarkSummary` dataclass (lines 540-579) with its defaults. -/
structure BenchmarkSummary where
  total_requests : ℕ := 0
  successful_requests : ℕ := 0
  failed_requests : ℕ := 0
  benchmark_duration : ℚ := 0
  total_input_tokens : ℤ := 0
  total_output_tokens : ℤ := 0
  request_throughput : ℚ := 0
  output_token_throughput : ℚ := 0
  total_token_throughput : ℚ := 0
  ttft_values : List ℚ := []
  mean_ttft : ℚ := 0
  median_ttft : ℚ := 0
  p99_ttft : ℚ := 0
  tpot_values : List ℚ := []
  mean_tpot : ℚ := 0
  median_tpot : ℚ := 0
  p99_tpot : ℚ := 0
  itl_values : List ℚ := []
  mean_itl : ℚ := 0
  median_itl : ℚ := 0
  p99_itl : ℚ := 0
  queue_time_values : List ℚ := []
  mean_queue_time : ℚ := 0
  median_queue_time : ℚ := 0
  p99_queue_time : ℚ := 0
deriving Repr, DecidableEq

/-- Insertion into a sorted list; `npSorted` is the sort underlying the
numpy order statistics. -/
def insertSorted (x : ℚ) : List ℚ → List ℚ
  | [] => [x]
  | y :: ys => if x ≤ y then x :: y :: ys else y :: insertSorted x ys

def npSorted (l : List ℚ) : List ℚ := l.foldr insertSorted []

/-- Model of `np.percentile(l, 100*p)` and `np.median` with the default linear
interpolation: virtual index `h = (n-1)*p`, linear between the two
surrounding order statistics. -/
def npQuantile (l : List ℚ) (p : ℚ) : ℚ :=
  let s := npSorted l
  let h : ℚ := ((s.length : ℚ) - 1) * p
  let i : ℕ := (⌊h⌋).toNat
  let g : ℚ := h - (⌊h⌋ : ℚ)
  s.getD i 0 + g * (s.getD (i + 1) 0 - s.getD i 0)

/-- The inner `calculate_stats` helper (lines 634-638): mean, median, p99,
with `(0, 0, 0)` on an empty list. -/
def calculate_stats (values : List ℚ) : ℚ × ℚ × ℚ :=
  if values.isEmpty then (0, 0, 0)
  else (values.sum / (values.length : ℚ),
        npQuantile values (1 / 2),
        npQuantile values (99 / 100))

/-- One iteration of the per-record latency collection loop of
`calculate_benchmark_summary` (lines 614-631): the four conditional appends
for TTFT (with server fallback), TPOT, the flattened ITL list (seconds to
milliseconds), and queue time. -/
def collectStep (acc : List ℚ × List ℚ × List ℚ × List ℚ) (r : RequestMetrics) :
    List ℚ × List ℚ × List ℚ × List ℚ :=
  let ttfts :=
    match r.client_ttft with
    | some v => acc.1 ++ [v]
    | none =>
        match r.server_ttft with
        | some v => acc.1 ++ [v]
        | none => acc.1
  let tpots :=
    match r.client_tpot with
    | some v => acc.2.1 ++ [v]
    | none => acc.2.1
  let itls :=
    if r.client_itl_list.isEmpty then acc.2.2.1
    else acc.2.2.1 ++ r.client_itl_list.map (· * 1000)
  let queues :=
    match r.server_queue_time with
    | some v => acc.2.2.2 ++ [v]
    | none => acc.2.2.2
  (ttfts, tpots, itls, queues)

/-- The per-record latency collection loop of `calculate_benchmark_summary`
(lines 608-631). -/
def collectLatencyData (successful : List RequestMetrics) :
    List ℚ × List ℚ × List ℚ × List ℚ :=
  successful.foldl collectStep ([], [], [], [])

/-- Embedding of `calculate_benchmark_summary` (lines 582-656). -/
def calculate_benchmark_summary (results : List RequestMetrics)
    (start_time end_time : ℚ) : BenchmarkSummary :=
  let successful := results.filter (·.success)
  let s0 : BenchmarkSummary :=
    { total_requests := results.length,
      successful_requests := successful.length,
      failed_requests := results.length - successful.length,
      benchmark_duration := end_time - start_time }
  if successful.isEmpty then s0
  else
    let s1 := { s0 with
      total_input_tokens := (successful.map (fun r : RequestMetrics => r.prompt_tokens.getD 0)).sum,
      total_output_tokens := (successful.map (fun r : RequestMetrics => r.completion_tokens.getD 0)).sum }
    let s2 :=
      if s1.benchmark_duration > 0 then
        { s1 with
          request_throughput := (s1.successful_requests : ℚ) / s1.benchmark_duration,
          output_token_throughput := (s1.total_output_tokens : ℚ) / s1.benchmark_duration,
          total_token_throughput :=
            ((s1.total_input_tokens + s1.total_output_tokens : ℤ) : ℚ) / s1.benchmark_duration }
      else s1
    let c := collectLatencyData successful
    let ttftStats := calculate_stats c.1
    let tpotStats := calculate_stats c.2.1
    let itlStats := calculate_stats c.2.2.1
    let queueStats := calculate_stats c.2.2.2
    { s2 with
      ttft_values := c.1,
      mean_ttft := ttftStats.1, median_ttft := ttftStats.2.1, p99_ttft := ttftStats.2.2,
      tpot_values := c.2.1,
      mean_tpot := tpotStats.1, median_tpot := tpotStats.2.1, p99_tpot := tpotStats.2.2,
      itl_values := c.2.2.1,
      mean_itl := itlStats.1, median_itl := itlStats.2.1, p99_itl := itlStats.2.2,
      queue_time_values := c.2.2.2,
      mean_queue_time := queueStats.1, median_queue_time := queueStats.2.1,
      p99_queue_time := queueStats.2.2 }

/-! ## Rate-controlled scheduler (`benchmark_sharegpt.py`,
`RateLimitedBenchmark.run_benchmark` / `_send_request_with_delay`) -/

/-- Embedding of `self.interval = 1.0 / rps if rps > 0 else 0` (benchmark_sharegpt.py
line 73). -/
def interval (rps : ℚ) : ℚ := if rps > 0 then 1 / rps else 0

/-- The start-delay each of the `n` requests is scheduled with by
`run_benchmark` (lines 100-131): the `rps <= 0` branch gathers all tasks
with no sleep; the rate-limited branch creates, for the i-th prompt, a task
that first sleeps `i * interval` (lines 114-120, 171-175). All tasks are
created up front, so the i-th entry is the i-th task's start delay
independent of earlier completions. -/
def scheduleDelays (rps : ℚ) (n : ℕ) : List ℚ :=
  if rps ≤ 0 then List.replicate n 0
  else (List.range n).map (fun i : ℕ => (i : ℚ) * interval rps)

/-! ## Persisted JSON format (`RequestMetrics.to_dict`) -/

/-- JSON values as Python's `json` module sees them, keeping the int/float
distinction Python preserves. -/
inductive JValue where
  | null
  | jbool (b : Bool)
  | jint (n : ℤ)
  | jnum (q : ℚ)
  | jstr (s : String)
  | jarr (xs : List JValue)
  | jobj (fields : List (String × JValue))

def TagValue.toJ : TagValue → JValue
  | .vStr s => .jstr s
  | .vInt n => .jint n
  | .vFloat q => .jnum q
  | .vBool b => .jbool b

def jOptNum : Option ℚ → JValue
  | none => .null
  | some q => .jnum q

def jOptInt : Option ℤ → JValue
  | none => .null
  | some n => .jint n

def jOptTag : Option TagValue → JValue
  | none => .null
  | some tv => tv.toJ

/-- Embedding of `RequestMetrics.to_dict` (lines 79-121). `fmtIso` stands for the
environment's `time.strftime('%Y-%m-%d %H:%M:%S', time.localtime t)`;
the guard `if self.send_time` is Python truthiness, so a zero timestamp also
yields `None`. -/
def RequestMetrics.to_dict (fmtIso : ℚ → String) (m : RequestMetrics) : JValue :=
  .jobj
    [("request_id", .jstr m.request_id),
     ("trace_id", .jstr m.trace_id),
     ("success", .jbool m.success),
     ("error_message", .jstr m.error_message),
     ("timestamp", jOptNum m.send_time),
     ("send_time_iso",
        match m.send_time with
        | some t => if t = 0 then .null else .jstr (fmtIso t)
        | none => .null),
     ("client_metrics", .jobj
        [("e2e_latency_ms", .jnum m.client_e2e_latency),
         ("ttft_ms", jOptNum m.client_ttft),
         ("tpot_ms", jOptNum m.client_tpot),
         ("itl_ms", jOptNum m.client_itl)]),
     ("server_metrics", .jobj
        [("queue_time_ms", jOptNum m.server_queue_time),
         ("prefill_time_ms", jOptNum m.server_prefill_time),
         ("decode_time_ms", jOptNum m.server_decode_time),
         ("inference_time_ms", jOptNum m.server_inference_time),
         ("e2e_time_ms", jOptNum m.server_e2e_time),
         ("ttft_ms", jOptNum m.server_ttft)]),
     ("tokens", .jobj
        [("prompt_tokens", jOptInt m.prompt_tokens),
         ("completion_tokens", jOptInt m.completion_tokens)]),
     ("request_params", .jobj
        [("model", jOptTag m.model_name),
         ("temperature", jOptNum m.temperature),
         ("top_p", jOptNum m.top_p),
         ("max_tokens", jOptInt m.max_tokens)]),
     ("content", .jobj
        [("generated_text", .jstr m.generated_text),
         ("text_length", .jint (m.generated_text.length : ℤ))]),
     ("detailed_data", .jobj
        [("itl_list_seconds", .jarr (m.client_itl_list.map .jnum)),
         ("itl_list_ms", .jarr (m.client_itl_list.map (fun q => .jnum (q * 1000))))])]

def jLookup : List (String × JValue) → String → Option JValue
  | [], _ => none
  | f :: fs, k => if f.1 = k then some f.2 else jLookup fs k

def jGetPath : JValue → List String → Option JValue
  | j, [] => some j
  | .jobj fs, k :: ks =>
      match jLookup fs k with
      | some j => jGetPath j ks
      | none => none
  | _, _ :: _ => none

def jAsStr : JValue → Option String
  | .jstr s => some s
  | _ => none

def jAsBool : JValue → Option Bool
  | .jbool b => some b
  | _ => none

def jAsNum : JValue → Option ℚ
  | .jnum q => some q
  | _ => none

def jAsOptNum : JValue → Option (Option ℚ)
  | .null => some none
  | .jnum q => some (some q)
  | _ => none

def jAsOptInt : JValue → Option (Option ℤ)
  | .null => some none
  | .jint n => some (some n)
  | _ => none

def jAsOptTag : JValue → Option (Option TagValue)
  | .null => some none
  | .jstr s => some (some (.vStr s))
  | .jint n => some (some (.vInt n))
  | .jnum q => some (some (.vFloat q))
  | .jbool b => some (some (.vBool b))
  | _ => none

def jNumsOf : List JValue → Option (List ℚ)
  | [] => some []
  | x :: xs =>
      match jAsNum x, jNumsOf xs with
      | some q, some qs => some (q :: qs)
      | _, _ => none

def jAsNumList : JValue → Option (List ℚ)
  | .jarr xs => jNumsOf xs
  | _ => none

/-- Modelled from the spec: the repository persists records through
`to_dict` (and `save_multiple_requests_metrics`) but contains no parser back
to a `RequestMetrics`; spec §8 requires that "serializing a Metrics Record
to the persisted JSON format and parsing it back must preserve every field".
This parser reads each persisted field back from the layout `to_dict`
writes, ignoring the derived entries (`send_time_iso`, `text_length`,
`itl_list_ms`). -/
def parseRequestMetrics (j : JValue) : Option RequestMetrics := do
  let .jobj fs := j | none
  let some rid := (jLookup fs "request_id").bind jAsStr | none
  let some tid := (jLookup fs "trace_id").bind jAsStr | none
  let some succ := (jLookup fs "success").bind jAsBool | none
  let some err := (jLookup fs "error_message").bind jAsStr | none
  let some sendTime := (jLookup fs "timestamp").bind jAsOptNum | none
  let some (JValue.jobj cms) := jLookup fs "client_metrics" | none
  let some e2e := (jLookup cms "e2e_latency_ms").bind jAsNum | none
  let some ttft := (jLookup cms "ttft_ms").bind jAsOptNum | none
  let some tpot := (jLookup cms "tpot_ms").bind jAsOptNum | none
  let some itl := (jLookup cms "itl_ms").bind jAsOptNum | none
  let some (JValue.jobj sms) := jLookup fs "server_metrics" | none
  let some sQueue := (jLookup sms "queue_time_ms").bind jAsOptNum | none
  let some sPrefill := (jLookup sms "prefill_time_ms").bind jAsOptNum | none
  let some sDecode := (jLookup sms "decode_time_ms").bind jAsOptNum | none
  let some sInfer := (jLookup sms "inference_time_ms").bind jAsOptNum | none
  let some sE2e := (jLookup sms "e2e_time_ms").bind jAsOptNum | none
  let some sTtft := (jLookup sms "ttft_ms").bind jAsOptNum | none
  let some (JValue.jobj toks) := jLookup fs "tokens" | none
  let some pTok := (jLookup toks "prompt_tokens").bind jAsOptInt | none
  let some cTok := (jLookup toks "completion_tokens").bind jAsOptInt | none
  let some (JValue.jobj ps) := jLookup fs "request_params" | none
  let some modelTag := (jLookup ps "model").bind jAsOptTag | none
  let some temp := (jLookup ps "temperature").bind jAsOptNum | none
  let some topP := (jLookup ps "top_p").bind jAsOptNum | none
  let some maxTok := (jLookup ps "max_tokens").bind jAsOptInt | none
  let some (JValue.jobj ct) := jLookup fs "content" | none
  let some text := (jLookup ct "generated_text").bind jAsStr | none
  let some (JValue.jobj dd) := jLookup fs "detailed_data" | none
  let some itlList := (jLookup dd "itl_list_seconds").bind jAsNumList | none
  some
    { request_id := rid, trace_id := tid, success := succ, error_message := err,
      send_time := sendTime, client_e2e_latency := e2e, client_ttft := ttft,
      client_tpot := tpot, client_itl := itl,
      server_queue_time := sQueue, server_prefill_time := sPrefill,
      server_decode_time := sDecode, server_inference_time := sInfer,
      server_e2e_time := sE2e, server_ttft := sTtft,
      prompt_tokens := pTok, completion_tokens := cTok,
      model_name := modelTag, temperature := temp, top_p := topP,
      max_tokens := maxTok, generated_text := text, client_itl_list := itlList }

/-! ## Derived notions used in the statements -/

/-- The prefix of stream lines the loop actually consumes: everything up to
(excluding) the first `[DONE]` line. -/
def consumedEvents : List StreamEvent → List StreamEvent
  | [] => []
  | .done :: _ => []
  | .token t c :: rest => .token t c :: consumedEvents rest
  | .skip :: rest => .skip :: consumedEvents rest

/-- Arrival times of the content tokens among the given stream lines. -/
def tokenTimes (events : List StreamEvent) : List ℚ :=
  events.filterMap fun e =>
    match e with
    | .token t _ => some t
    | _ => none

/-- The monotonic clock is well-behaved for the given outcome: the reading
taken before the call bounds every token arrival and the end-of-stream
reading from below. -/
def clockOK (start : ℚ) : HttpOutcome → Prop
  | .streamOk events endTime => start ≤ endTime ∧ ∀ t ∈ tokenTimes events, start ≤ t
  | .nonStreamOk _ endTime => start ≤ endTime
  | _ => True

/-- The TTFT value a successful record contributes to the summary: the
client value, falling back to the server value (the if/elif at
lines 616-619). -/
def ttftOf (r : RequestMetrics) : Option ℚ :=
  match r.client_ttft with
  | some v => some v
  | none => r.server_ttft

/-! ## Claim theorems -/

/-- C1: for N prompts and target rate R, the i-th request (0-indexed) is
launched as a front-loaded task whose start delay is exactly i × (1/R)
seconds when R > 0, and all requests start with zero delay when R ≤ 0. -/
theorem C1_rate_limited_schedule (rps : ℚ) (n : ℕ) :
    scheduleDelays rps n =
      (List.range n).map
        (fun i : ℕ => if 0 < rps then (i : ℚ) * (1 / rps) else 0) := by
  unfold scheduleDelays interval
  by_cases h : rps ≤ 0
  · have h' : ¬ 0 < rps := not_lt.mpr h
    simp only [if_pos h, if_neg h']
    rw [List.map_const', List.length_range]
  · have h' : 0 < rps := not_le.mp h
    simp [h, h']

/-- Helper for C3: the post-stream TPOT/ITL computation, for any record with
those fields still unset. -/
lemma tpot_itl_of_process (start endTime : ℚ) (events : List StreamEvent)
    (m : RequestMetrics) (hm1 : m.client_tpot = none) (hm2 : m.client_itl = none) :
    (processStreamingResponse start endTime events m).client_itl =
      (processStreamingResponse start endTime events m).client_tpot ∧
    (processStreamingResponse start endTime events m).client_tpot =
      (if (processStreamingResponse start endTime events m).client_itl_list.isEmpty
       then none
       else some
         (((processStreamingResponse start endTime events m).client_itl_list.sum /
            ((processStreamingResponse start endTime events m).client_itl_list.length : ℚ)) *
          1000)) := by
  unfold processStreamingResponse
  by_cases h : (runStream start (initState start m) events).gaps.isEmpty
  · have h' : (runStream start (initState start m) events).gaps = [] := by
      simpa using h
    simp [h', hm1, hm2]
  · have h' : ¬ (runStream start (initState start m) events).gaps = [] := by
      simpa using h
    simp [h']

/-- C3: after a stream completes, the record's TPOT and ITL fields are the
same value, the arithmetic mean of the stored inter-token gap list converted
to milliseconds; an empty gap list leaves both unset. -/
theorem C3_tpot_itl_same_gap_mean (rid tid : String) (t0 start endTime : ℚ)
    (events : List StreamEvent) :
    (send_request rid tid t0 start (.streamOk events endTime)).client_itl =
      (send_request rid tid t0 start (.streamOk events endTime)).client_tpot ∧
    (send_request rid tid t0 start (.streamOk events endTime)).client_tpot =
      (if (send_request rid tid t0 start (.streamOk events endTime)).client_itl_list.isEmpty
       then none
       else some
         (((send_request rid tid t0 start (.streamOk events endTime)).client_itl_list.sum /
            ((send_request rid tid t0 start (.streamOk events endTime)).client_itl_list.length : ℚ)) *
          1000)) := by
  exact tpot_itl_of_process start endTime events (freshMetrics rid tid t0) rfl rfl

/-- C4: the summary's counts, duration, and throughputs satisfy
total = len, success = count of successes, fail = total − success,
duration = end − start, the three throughput formulas hold whenever
duration > 0 and all throughputs are 0 otherwise, and the empty record list
yields the all-zero summary without error. -/
theorem C4_summary_counts_throughputs (results : List RequestMetrics)
    (start_time end_time : ℚ) :
    (calculate_benchmark_summary results start_time end_time).total_requests =
      results.length ∧
    (calculate_benchmark_summary results start_time end_time).successful_requests =
      (results.filter (·.success)).length ∧
    (calculate_benchmark_summary results start_time end_time).failed_requests =
      results.length - (results.filter (·.success)).length ∧
    (calculate_benchmark_summary results start_time end_time).benchmark_duration =
      end_time - start_time ∧
    (calculate_benchmark_summary results start_time end_time).request_throughput =
      (if 0 < end_time - start_time then
        ((calculate_benchmark_summary results start_time end_time).successful_requests : ℚ) /
          (end_time - start_time)
       else 0) ∧
    (calculate_benchmark_summary results start_time end_time).output_token_throughput =
      (if 0 < end_time - start_time then
        ((calculate_benchmark_summary results start_time end_time).total_output_tokens : ℚ) /
          (end_time - start_time)
       else 0) ∧
    (calculate_benchmark_summary results start_time end_time).total_token_throughput =
      (if 0 < end_time - start_time then
        (((calculate_benchmark_summary results start_time end_time).total_input_tokens +
          (calculate_benchmark_summary results start_time end_time).total_output_tokens : ℤ) : ℚ) /
          (end_time - start_time)
       else 0) ∧
    calculate_benchmark_summary [] start_time end_time =
      { benchmark_duration := end_time - start_time } := by
  unfold calculate_benchmark_summary
  by_cases hs : (results.filter (·.success)).isEmpty
  · by_cases hd : 0 < end_time - start_time <;>
      simp [hs, hd, List.isEmpty_iff.mp hs]
  · by_cases hd : 0 < end_time - start_time <;> simp [hs, hd]

/-- Once the first token has been seen, the streaming loop never touches the
record's TTFT again. -/
lemma runStream_ttft_stable (start : ℚ) (events : List StreamEvent)
    (st : StreamState) (h : st.firstTokenTime.isSome) :
    (runStream start st events).ttft = st.ttft := by
  induction events generalizing st with
  | nil => rfl
  | cons e rest ih =>
      cases e with
      | token t c =>
          obtain ⟨t0, ht⟩ := Option.isSome_iff_exists.mp h
          rw [runStream, ih _ (by simp [streamStep, ht])]
          simp [streamStep, ht]
      | skip =>
          rw [runStream, show streamStep start st .skip = st from rfl]
          exact ih _ h
      | done => rfl

/-- The TTFT the streaming loop leaves behind is determined by the first
content token among the consumed lines. -/
lemma runStream_ttft_of_first (start : ℚ) (events : List StreamEvent)
    (st : StreamState) (h : st.firstTokenTime = none) :
    (runStream start st events).ttft =
      match (tokenTimes (consumedEvents events)).head? with
      | none => st.ttft
      | some t => some ((t - start) * 1000) := by
  induction events generalizing st with
  | nil => rfl
  | cons e rest ih =>
      cases e with
      | token t c =>
          rw [runStream, runStream_ttft_stable _ _ _ (by simp [streamStep, h])]
          simp [streamStep, h, consumedEvents, tokenTimes]
      | skip =>
          rw [runStream, show streamStep start st .skip = st from rfl, ih _ h]
          simp [consumedEvents, tokenTimes]
      | done =>
          rw [runStream]
          simp [consumedEvents, tokenTimes]

/-- The consumed prefix of the stream is a sublist of the whole stream. -/
lemma consumedEvents_sublist (events : List StreamEvent) :
    (consumedEvents events).Sublist events := by
  induction events with
  | nil => simp [consumedEvents]
  | cons e rest ih =>
      cases e with
      | token t c =>
          simp only [consumedEvents]
          exact ih.cons₂ _
      | skip =>
          simp only [consumedEvents]
          exact ih.cons₂ _
      | done =>
          simp [consumedEvents]

lemma processStreamingResponse_e2e (start endTime : ℚ) (events : List StreamEvent)
    (m : RequestMetrics) :
    (processStreamingResponse start endTime events m).client_e2e_latency =
      (endTime - start) * 1000 := by
  by_cases hgap : (runStream start (initState start m) events).gaps = [] <;>
    simp [processStreamingResponse, hgap]

lemma processStreamingResponse_ttft (start endTime : ℚ) (events : List StreamEvent)
    (m : RequestMetrics) :
    (processStreamingResponse start endTime events m).client_ttft =
      (runStream start (initState start m) events).ttft := by
  by_cases hgap : (runStream start (initState start m) events).gaps = [] <;>
    simp [processStreamingResponse, hgap]

lemma processNonStreamingResponse_e2e (start endTime : ℚ) (content : Option String)
    (m : RequestMetrics) :
    (processNonStreamingResponse start endTime content m).client_e2e_latency =
      (endTime - start) * 1000 := by
  cases content <;> rfl

lemma processNonStreamingResponse_ttft (start endTime : ℚ) (content : Option String)
    (m : RequestMetrics) :
    (processNonStreamingResponse start endTime content m).client_ttft =
      m.client_ttft := by
  cases content <;> rfl

/-- C2 counterexample: partial timing data already accumulated is NOT
always discarded on failure. An exception that aborts the stream after the
first token leaves a failed record whose client TTFT is still set (the
in-loop write at line 283), and an exception during non-streaming content
extraction (lines 312-313) leaves a failed record whose end-to-end latency,
written at line 310 before the extraction, is non-zero. -/
theorem C2_counterexample :
    (send_request "r" "t" 0 0 (.streamExn [.token 1 "a"] "boom")).success = false ∧
    (send_request "r" "t" 0 0 (.streamExn [.token 1 "a"] "boom")).client_ttft =
      some 1000 ∧
    (send_request "r" "t" 0 0 (.nonStreamExtractExn 2 "KeyError")).success = false ∧
    (send_request "r" "t" 0 0 (.nonStreamExtractExn 2 "KeyError")).client_e2e_latency =
      2000 := by
  refine ⟨rfl, ?_, rfl, ?_⟩
  · show some ((1 - 0) * 1000) = some (1000 : ℚ)
    norm_num
  · show ((2 : ℚ) - 0) * 1000 = 2000
    norm_num

/-- C2 (amended): on every failed record, TPOT, ITL, the gap list, the
generated text, all server-side fields, the token counts and the request
parameters are unset, with only the error string populated; but partial
timing data already accumulated is not discarded: the client TTFT survives
a mid-stream exception after the first token, and the end-to-end latency,
at its default 0 on every other failure path, holds the already-measured
value `(endTime − start) · 1000` when a non-streaming response failed
during content extraction after the latency write. -/
theorem C2_amended_failed_record_fields (rid tid : String) (t0 start : ℚ)
    (outcome : HttpOutcome)
    (h : (send_request rid tid t0 start outcome).success = false) :
    (send_request rid tid t0 start outcome).client_tpot = none ∧
    (send_request rid tid t0 start outcome).client_itl = none ∧
    (send_request rid tid t0 start outcome).client_itl_list = [] ∧
    (send_request rid tid t0 start outcome).generated_text = "" ∧
    (send_request rid tid t0 start outcome).server_queue_time = none ∧
    (send_request rid tid t0 start outcome).server_prefill_time = none ∧
    (send_request rid tid t0 start outcome).server_decode_time = none ∧
    (send_request rid tid t0 start outcome).server_inference_time = none ∧
    (send_request rid tid t0 start outcome).server_e2e_time = none ∧
    (send_request rid tid t0 start outcome).server_ttft = none ∧
    (send_request rid tid t0 start outcome).prompt_tokens = none ∧
    (send_request rid tid t0 start outcome).completion_tokens = none ∧
    (send_request rid tid t0 start outcome).model_name = none ∧
    (send_request rid tid t0 start outcome).temperature = none ∧
    (send_request rid tid t0 start outcome).top_p = none ∧
    (send_request rid tid t0 start outcome).max_tokens = none ∧
    (send_request rid tid t0 start outcome).client_e2e_latency =
      (match outcome with
       | .nonStreamExtractExn endTime _ => (endTime - start) * 1000
       | _ => 0) := by
  cases outcome with
  | httpError status body =>
      exact ⟨rfl, rfl, rfl, rfl, rfl, rfl, rfl, rfl, rfl, rfl, rfl, rfl, rfl, rfl,
        rfl, rfl, rfl⟩
  | streamOk events endTime => exact Bool.noConfusion h
  | streamExn events msg =>
      exact ⟨rfl, rfl, rfl, rfl, rfl, rfl, rfl, rfl, rfl, rfl, rfl, rfl, rfl, rfl,
        rfl, rfl, rfl⟩
  | nonStreamOk content endTime => exact Bool.noConfusion h
  | nonStreamExtractExn endTime msg =>
      exact ⟨rfl, rfl, rfl, rfl, rfl, rfl, rfl, rfl, rfl, rfl, rfl, rfl, rfl, rfl,
        rfl, rfl, rfl⟩
  | nonStreamExn msg =>
      exact ⟨rfl, rfl, rfl, rfl, rfl, rfl, rfl, rfl, rfl, rfl, rfl, rfl, rfl, rfl,
        rfl, rfl, rfl⟩
  | connExn msg =>
      exact ⟨rfl, rfl, rfl, rfl, rfl, rfl, rfl, rfl, rfl, rfl, rfl, rfl, rfl, rfl,
        rfl, rfl, rfl⟩

theorem C2_amended_witness :
    (send_request "r" "t" 0 0 (.httpError 500 "oops")).success = false ∧
    (send_request "r" "t" 0 0 (.httpError 500 "oops")).client_tpot = none ∧
    (send_request "r" "t" 0 0 (.httpError 500 "oops")).client_itl = none :=
  ⟨rfl,
   (C2_amended_failed_record_fields "r" "t" 0 0 (.httpError 500 "oops") rfl).1,
   (C2_amended_failed_record_fields "r" "t" 0 0 (.httpError 500 "oops") rfl).2.1⟩

/-- C7 counterexample: a streamed request whose stream carries no content
token at all (e.g. an immediate `[DONE]`) is marked successful, yet its
client TTFT is unset - refuting "success and streamed implies TTFT set". -/
theorem C7_counterexample :
    (send_request "r" "t" 0 0 (.streamOk [] 5)).success = true ∧
    (send_request "r" "t" 0 0 (.streamOk [] 5)).client_ttft = none :=
  ⟨rfl, rfl⟩

/-- C7 (amended): with a well-behaved monotonic clock, every successful
record has a non-negative end-to-end latency, and for a streamed request the
client TTFT is `(tFirst − start) · 1000` for the first consumed content
token - hence set and non-negative when such a token exists, and unset when
the consumed stream carries no content token. -/
theorem C7_amended_success_latencies (rid tid : String) (t0 start : ℚ)
    (outcome : HttpOutcome) (hclock : clockOK start outcome)
    (h : (send_request rid tid t0 start outcome).success = true) :
    0 ≤ (send_request rid tid t0 start outcome).client_e2e_latency ∧
    (∀ events endTime, outcome = .streamOk events endTime →
      (send_request rid tid t0 start outcome).client_ttft =
        (match (tokenTimes (consumedEvents events)).head? with
         | none => none
         | some t => some ((t - start) * 1000))) ∧
    (∀ q, (send_request rid tid t0 start outcome).client_ttft = some q → 0 ≤ q) := by
  cases outcome with
  | httpError status body => exact Bool.noConfusion h
  | streamExn events msg => exact Bool.noConfusion h
  | nonStreamExtractExn endTime msg => exact Bool.noConfusion h
  | nonStreamExn msg => exact Bool.noConfusion h
  | connExn msg => exact Bool.noConfusion h
  | streamOk events endTime =>
      obtain ⟨hend, htok⟩ := hclock
      have httft :
          (send_request rid tid t0 start (.streamOk events endTime)).client_ttft =
            (match (tokenTimes (consumedEvents events)).head? with
             | none => none
             | some t => some ((t - start) * 1000)) := by
        show (processStreamingResponse start endTime events
            (freshMetrics rid tid t0)).client_ttft = _
        rw [processStreamingResponse_ttft,
          runStream_ttft_of_first start events _ rfl]
        cases (tokenTimes (consumedEvents events)).head? <;> rfl
      refine ⟨?_, ?_, ?_⟩
      · show 0 ≤ (processStreamingResponse start endTime events
            (freshMetrics rid tid t0)).client_e2e_latency
        rw [processStreamingResponse_e2e]
        have : (0 : ℚ) ≤ endTime - start := by linarith
        positivity
      · intro ev endT heq
        injection heq with h1 h2
        subst h1
        exact httft
      · intro q hq
        rw [httft] at hq
        cases hh : (tokenTimes (consumedEvents events)).head? with
        | none => rw [hh] at hq; cases hq
        | some t =>
            rw [hh] at hq
            have hq' : (t - start) * 1000 = q := Option.some.inj hq
            have hmem : t ∈ tokenTimes (consumedEvents events) :=
              List.mem_of_mem_head? (Option.mem_def.mpr hh)
            have hsub : (tokenTimes (consumedEvents events)).Sublist (tokenTimes events) :=
              (consumedEvents_sublist events).filterMap _
            have hst : start ≤ t := htok t (hsub.subset hmem)
            have : (0 : ℚ) ≤ t - start := by linarith
            rw [← hq']
            positivity
  | nonStreamOk content endTime =>
      refine ⟨?_, ?_, ?_⟩
      · show 0 ≤ (processNonStreamingResponse start endTime content
            (freshMetrics rid tid t0)).client_e2e_latency
        rw [processNonStreamingResponse_e2e]
        have : (0 : ℚ) ≤ endTime - start := by
          simpa [clockOK] using hclock
        positivity
      · intro ev endT heq
        exact absurd heq (by simp)
      · intro q hq
        have : (send_request rid tid t0 start (.nonStreamOk content endTime)).client_ttft =
            none := by
          show (processNonStreamingResponse start endTime content
              (freshMetrics rid tid t0)).client_ttft = none
          rw [processNonStreamingResponse_ttft]
          rfl
        rw [this] at hq
        cases hq

theorem C7_amended_witness :
    clockOK 0 (HttpOutcome.streamOk [.token 1 "a"] 2) ∧
    (send_request "r" "t" 0 0 (.streamOk [.token 1 "a"] 2)).success = true ∧
    0 ≤ (send_request "r" "t" 0 0 (.streamOk [.token 1 "a"] 2)).client_e2e_latency := by
  have hc : clockOK 0 (HttpOutcome.streamOk [.token 1 "a"] 2) := by
    refine ⟨by norm_num, ?_⟩
    intro t ht
    simp only [tokenTimes, List.filterMap] at ht
    simp at ht
    subst ht
    norm_num
  exact ⟨hc, rfl, (C7_amended_success_latencies "r" "t" 0 0 _ hc rfl).1⟩

/-- The collection fold, with its accumulator generalized: it appends, per
dimension, the TTFT values with server fallback, the set TPOT values, the
flattened millisecond gap lists, and the set queue times. -/
lemma collectLatencyData_go (l : List RequestMetrics) (a b c d : List ℚ) :
    l.foldl collectStep (a, b, c, d) =
      (a ++ l.filterMap ttftOf,
       b ++ l.filterMap (fun r => r.client_tpot),
       c ++ l.flatMap (fun r => r.client_itl_list.map (· * 1000)),
       d ++ l.filterMap (fun r => r.server_queue_time)) := by
  induction l generalizing a b c d with
  | nil => simp
  | cons r rest ih =>
      rw [List.foldl_cons]
      cases hct : r.client_ttft <;> cases hst : r.server_ttft <;>
        cases hcp : r.client_tpot <;> cases hq : r.server_queue_time <;>
          by_cases hl : r.client_itl_list = [] <;>
            simp [collectStep, ttftOf, hct, hst, hcp, hq, hl, ih]

lemma collectLatencyData_eq (l : List RequestMetrics) :
    collectLatencyData l =
      (l.filterMap ttftOf,
       l.filterMap (fun r => r.client_tpot),
       l.flatMap (fun r => r.client_itl_list.map (· * 1000)),
       l.filterMap (fun r => r.server_queue_time)) := by
  unfold collectLatencyData
  rw [collectLatencyData_go]
  simp

/-- C5: the summary's per-dimension collections are exactly: TTFT from each
successful record's client value with server fallback, TPOT one value per
successful record that has it, ITL every element of every successful
record's gap list converted to milliseconds (flattened), queue time from the
server queue-time field; mean/median/p99 are computed per collection and an
empty collection yields (0, 0, 0) rather than an error. -/
theorem C5_summary_statistics (results : List RequestMetrics)
    (start_time end_time : ℚ) :
    (calculate_benchmark_summary results start_time end_time).ttft_values =
      (results.filter (·.success)).filterMap ttftOf ∧
    (calculate_benchmark_summary results start_time end_time).tpot_values =
      (results.filter (·.success)).filterMap (fun r => r.client_tpot) ∧
    (calculate_benchmark_summary results start_time end_time).itl_values =
      (results.filter (·.success)).flatMap (fun r => r.client_itl_list.map (· * 1000)) ∧
    (calculate_benchmark_summary results start_time end_time).queue_time_values =
      (results.filter (·.success)).filterMap (fun r => r.server_queue_time) ∧
    ((calculate_benchmark_summary results start_time end_time).mean_ttft,
     (calculate_benchmark_summary results start_time end_time).median_ttft,
     (calculate_benchmark_summary results start_time end_time).p99_ttft) =
      calculate_stats ((calculate_benchmark_summary results start_time end_time).ttft_values) ∧
    ((calculate_benchmark_summary results start_time end_time).mean_tpot,
     (calculate_benchmark_summary results start_time end_time).median_tpot,
     (calculate_benchmark_summary results start_time end_time).p99_tpot) =
      calculate_stats ((calculate_benchmark_summary results start_time end_time).tpot_values) ∧
    ((calculate_benchmark_summary results start_time end_time).mean_itl,
     (calculate_benchmark_summary results start_time end_time).median_itl,
     (calculate_benchmark_summary results start_time end_time).p99_itl) =
      calculate_stats ((calculate_benchmark_summary results start_time end_time).itl_values) ∧
    ((calculate_benchmark_summary results start_time end_time).mean_queue_time,
     (calculate_benchmark_summary results start_time end_time).median_queue_time,
     (calculate_benchmark_summary results start_time end_time).p99_queue_time) =
      calculate_stats ((calculate_benchmark_summary results start_time end_time).queue_time_values) ∧
    calculate_stats [] = (0, 0, 0) := by
  unfold calculate_benchmark_summary
  by_cases hs : (results.filter (·.success)).isEmpty
  · have h' : results.filter (·.success) = [] := List.isEmpty_iff.mp hs
    simp [hs, h', calculate_stats]
  · by_cases hd : 0 < end_time - start_time <;>
      simp [hs, hd, collectLatencyData_eq, calculate_stats]

/-- C6 counterexample: a poll that returns a trace containing an
`llm_request` span carrying no attribute tags at all makes
`enrich_with_server_metrics` return success (True), not the failure (False)
the claim asserts for absent attributes - the 12-key dict of `None`s built
for the span is truthy. -/
theorem C6_counterexample :
    (enrich_with_server_metrics
      [.ok ⟨[⟨[⟨"llm_request", []⟩]⟩]⟩] (freshMetrics "r" "t" 0)).1 = true := rfl

/-- C6 (amended): `enrich_with_server_metrics` returns failure - leaving
every field of the record unchanged, so the request is in particular not
marked failed - exactly when no poll within the timeout yields a trace
containing an `llm_request` span; a span with absent attributes still counts
as success, with each server-side field set to the absent value. -/
theorem C6_amended_no_span_no_change (polls : List PollResult)
    (m : RequestMetrics) (h : pollLoop polls = none) :
    enrich_with_server_metrics polls m = (false, m) := by
  simp [enrich_with_server_metrics, h]

theorem C6_amended_witness :
    pollLoop [PollResult.fail] = none ∧
    enrich_with_server_metrics [PollResult.fail] (freshMetrics "r" "t" 0) =
      (false, freshMetrics "r" "t" 0) :=
  ⟨rfl, C6_amended_no_span_no_change [PollResult.fail] (freshMetrics "r" "t" 0) rfl⟩

/-- C9: as soon as a poll yields a trace with a span named `llm_request`,
enrichment returns True - whatever tags the span carries - and overwrites
all six server-timing fields, both token counts, and the four
request-parameter fields with the parsed tag values; each parse is the
absent value when its tag is missing (`safe_* none = none`), so a True
return guarantees no individual field to be set. -/
theorem C9_enrich_on_span_found (tags : List SpanTag) (rest : List PollResult)
    (m : RequestMetrics) :
    (enrich_with_server_metrics (.ok ⟨[⟨[⟨"llm_request", tags⟩]⟩]⟩ :: rest) m).1 =
      true ∧
    (enrich_with_server_metrics (.ok ⟨[⟨[⟨"llm_request", tags⟩]⟩]⟩ :: rest) m).2 =
      { m with
        server_queue_time := safe_float_ms (tagsGet tags "gen_ai.latency.time_in_queue"),
        server_prefill_time := safe_float_ms (tagsGet tags "gen_ai.latency.time_in_model_prefill"),
        server_decode_time := safe_float_ms (tagsGet tags "gen_ai.latency.time_in_model_decode"),
        server_inference_time := safe_float_ms (tagsGet tags "gen_ai.latency.time_in_model_inference"),
        server_e2e_time := safe_float_ms (tagsGet tags "gen_ai.latency.e2e"),
        server_ttft := safe_float_ms (tagsGet tags "gen_ai.latency.time_to_first_token"),
        prompt_tokens := safe_int (tagsGet tags "gen_ai.usage.prompt_tokens"),
        completion_tokens := safe_int (tagsGet tags "gen_ai.usage.completion_tokens"),
        model_name := tagsGet tags "gen_ai.response.model",
        temperature := safe_float (tagsGet tags "gen_ai.request.temperature"),
        top_p := safe_float (tagsGet tags "gen_ai.request.top_p"),
        max_tokens := safe_int (tagsGet tags "gen_ai.request.max_tokens") } ∧
    safe_float_ms none = none ∧ safe_float none = none ∧ safe_int none = none := by
  refine ⟨?_, ?_, rfl, rfl, rfl⟩ <;>
    simp [enrich_with_server_metrics, pollLoop, extract_server_metrics_from_trace,
      extractFromTraces, extractFromSpans, serverDataOfTags]

lemma processStreamingResponse_params_frame (start endTime : ℚ)
    (events : List StreamEvent) (m : RequestMetrics) :
    (processStreamingResponse start endTime events m).prompt_tokens = m.prompt_tokens ∧
    (processStreamingResponse start endTime events m).completion_tokens = m.completion_tokens ∧
    (processStreamingResponse start endTime events m).model_name = m.model_name ∧
    (processStreamingResponse start endTime events m).temperature = m.temperature ∧
    (processStreamingResponse start endTime events m).top_p = m.top_p ∧
    (processStreamingResponse start endTime events m).max_tokens = m.max_tokens := by
  by_cases hgap : (runStream start (initState start m) events).gaps = [] <;>
    simp [processStreamingResponse, hgap]

/-- C10: `send_request` never writes the echoed request parameters or the
token counts - they are unset on every record it returns - and after
`enrich_with_server_metrics` those six fields hold exactly the values parsed
out of the server's trace tags when the poll loop found the span, and are
untouched otherwise. -/
theorem C10_params_tokens_only_from_enrichment (rid tid : String)
    (t0 start : ℚ) (outcome : HttpOutcome) (polls : List PollResult)
    (m : RequestMetrics) :
    ((send_request rid tid t0 start outcome).prompt_tokens = none ∧
     (send_request rid tid t0 start outcome).completion_tokens = none ∧
     (send_request rid tid t0 start outcome).model_name = none ∧
     (send_request rid tid t0 start outcome).temperature = none ∧
     (send_request rid tid t0 start outcome).top_p = none ∧
     (send_request rid tid t0 start outcome).max_tokens = none) ∧
    ((enrich_with_server_metrics polls m).2.prompt_tokens =
       (match pollLoop polls with
        | none => m.prompt_tokens
        | some d => d.prompt_tokens) ∧
     (enrich_with_server_metrics polls m).2.completion_tokens =
       (match pollLoop polls with
        | none => m.completion_tokens
        | some d => d.completion_tokens) ∧
     (enrich_with_server_metrics polls m).2.model_name =
       (match pollLoop polls with
        | none => m.model_name
        | some d => d.model) ∧
     (enrich_with_server_metrics polls m).2.temperature =
       (match pollLoop polls with
        | none => m.temperature
        | some d => d.temperature) ∧
     (enrich_with_server_metrics polls m).2.top_p =
       (match pollLoop polls with
        | none => m.top_p
        | some d => d.top_p) ∧
     (enrich_with_server_metrics polls m).2.max_tokens =
       (match pollLoop polls with
        | none => m.max_tokens
        | some d => d.max_tokens)) := by
  constructor
  · cases outcome with
    | httpError status body => exact ⟨rfl, rfl, rfl, rfl, rfl, rfl⟩
    | streamOk events endTime =>
        exact processStreamingResponse_params_frame start endTime events
          (freshMetrics rid tid t0)
    | streamExn events msg => exact ⟨rfl, rfl, rfl, rfl, rfl, rfl⟩
    | nonStreamOk content endTime =>
        cases content <;> exact ⟨rfl, rfl, rfl, rfl, rfl, rfl⟩
    | nonStreamExtractExn endTime msg => exact ⟨rfl, rfl, rfl, rfl, rfl, rfl⟩
    | nonStreamExn msg => exact ⟨rfl, rfl, rfl, rfl, rfl, rfl⟩
    | connExn msg => exact ⟨rfl, rfl, rfl, rfl, rfl, rfl⟩
  · cases hp : pollLoop polls <;> simp [enrich_with_server_metrics, hp]

lemma jAsOptNum_jOptNum (x : Option ℚ) : jAsOptNum (jOptNum x) = some x := by
  cases x <;> rfl

lemma jAsOptInt_jOptInt (x : Option ℤ) : jAsOptInt (jOptInt x) = some x := by
  cases x <;> rfl

lemma jAsOptTag_jOptTag (x : Option TagValue) : jAsOptTag (jOptTag x) = some x := by
  cases x with
  | none => rfl
  | some tv => cases tv <;> rfl

lemma jAsNumList_map (f : ℚ → ℚ) (l : List ℚ) :
    jAsNumList (.jarr (l.map (fun q => .jnum (f q)))) = some (l.map f) := by
  induction l with
  | nil => rfl
  | cons q rest ih =>
      simp only [jAsNumList, List.map_cons, jNumsOf, jAsNum] at ih ⊢
      rw [ih]

lemma jAsNumList_map_id (l : List ℚ) :
    jAsNumList (.jarr (l.map .jnum)) = some l := by
  have h := jAsNumList_map (fun q => q) l
  simpa using h

/-- C8: serializing a record to the persisted JSON layout and parsing it
back restores every field, and in the serialized record `itl_list_ms` is
elementwise exactly `itl_list_seconds` times 1000 (same length, each
element scaled), over exact rational arithmetic. -/
theorem C8_to_dict_roundtrip (fmtIso : ℚ → String) (m : RequestMetrics) :
    parseRequestMetrics (m.to_dict fmtIso) = some m ∧
    jGetPath (m.to_dict fmtIso) ["detailed_data", "itl_list_ms"] =
      some (.jarr (m.client_itl_list.map (fun q => .jnum (q * 1000)))) ∧
    (jGetPath (m.to_dict fmtIso) ["detailed_data", "itl_list_seconds"]).bind jAsNumList =
      some m.client_itl_list ∧
    (jGetPath (m.to_dict fmtIso) ["detailed_data", "itl_list_ms"]).bind jAsNumList =
      some (m.client_itl_list.map (· * 1000)) := by
  refine ⟨?_, ?_, ?_, ?_⟩
  · simp [RequestMetrics.to_dict, parseRequestMetrics, jLookup, jAsStr,
      jAsBool, jAsNum, jAsOptNum_jOptNum, jAsOptInt_jOptInt, jAsOptTag_jOptTag,
      jAsNumList_map_id]
  · simp [RequestMetrics.to_dict, jGetPath, jLookup]
  · simp [RequestMetrics.to_dict, jGetPath, jLookup, jAsNumList_map_id]
  · simp [RequestMetrics.to_dict, jGetPath, jLookup, jAsNumList_map]

end VllmMetrics
